import Mathlib

/-!
A shallow embedding of the core logic of the MyPinballStats repository:

* the Match Play opponent-history reconstruction
  (lib/providers/matchplay.ts, function getRecentOpponents),
* the IFPA stats normalization (lib/providers/ifpa.ts, getOpenStats),
* the identity resolver and combined dashboard route
  (app/api/combined/me/route.ts, resolvePlayerIds and GET),
* the in-memory rate limiter (lib/cache.ts, isRateLimited).

Network fetches are modelled by passing the settled outcome of each fetch
(as an Except value) into otherwise pure functions, mirroring the
Promise.allSettled structure of the source.  JavaScript numbers are
modelled as Int (for identifiers, finish positions, counters) and as Rat
where division occurs; string comparison (localeCompare / the < and >
operators on ISO-8601 timestamps) is modelled as lexicographic comparison
on character code points.
-/

/-- Lexicographic less-or-equal on character lists, by code point.
Models JavaScript string ordering restricted to the ISO-8601 timestamp
strings this code compares. -/
def lexLe : List Char → List Char → Bool
  | [], _ => true
  | _ :: _, [] => false
  | a :: as, b :: bs => if a < b then true else if a = b then lexLe as bs else false

/-- String less-or-equal, lexicographic on code points. -/
def strLe (a b : String) : Bool := lexLe a.toList b.toList

/-- JavaScript strict greater-than on strings (total order, so gt = not le). -/
def strGt (a b : String) : Bool := ! strLe a b

/-- JavaScript Map.prototype.set: update the binding in place when the key
is already present (preserving its position), otherwise append. -/
def jsMapSet {α β : Type} [DecidableEq α] (k : α) (v : β) :
    List (α × β) → List (α × β)
  | [] => [(k, v)]
  | (k0, v0) :: rest =>
      if k0 = k then (k, v) :: rest else (k0, v0) :: jsMapSet k v rest

/-- JavaScript Map.prototype.get (keys are unique in a map built by set). -/
def jsMapGet {α β : Type} [DecidableEq α] (k : α) (m : List (α × β)) : Option β :=
  (m.find? (fun e => e.1 = k)).map (·.2)

-- ── Match Play opponent reconstruction (lib/providers/matchplay.ts) ──

/-- Roster entry of MPTournamentDetailResponse (fields used by the code). -/
structure MPTournamentPlayer where
  playerId : Int
  name : String
  claimedBy : Option Int
deriving DecidableEq

/-- A game record from the games endpoint (fields used by the code).
resultPositions is parallel to playerIds; a missing entry (undefined in
JavaScript) and an entry of 0 are both falsy and are modelled as 0. -/
structure MPGame where
  status : String
  bye : Bool
  startedAt : Option String
  playerIds : List Int
  resultPositions : List Int
deriving DecidableEq

/-- The per-tournament data gathered in step 2 of getRecentOpponents. -/
structure TournamentData where
  startUtc : String
  players : List MPTournamentPlayer
  games : List MPGame
deriving DecidableEq

/-- Accumulated per-opponent record during the walk. -/
structure OppAcc where
  wins : Nat
  losses : Nat
  lastPlayed : String
deriving DecidableEq

/-- The opponent accumulator map (a JavaScript Map keyed by opponent name). -/
abbrev OppMap := List (String × OppAcc)

/-- Finish position of participant index i, with 0 for a missing entry
(JavaScript: game.resultPositions[i], undefined and 0 both falsy). -/
def posAt (g : MPGame) (i : Nat) : Int := g.resultPositions.getD i 0

/-- Opponent display name: nameOf.get(oppId) with the fallback label when
the lookup misses or the stored name is empty (JavaScript falsiness of the
empty string under the or-operator). -/
def oppNameOf (nameOf : List (Int × String)) (oppId : Int) : String :=
  match jsMapGet oppId nameOf with
  | some n => if n = "" then "Player " ++ toString oppId else n
  | none => "Player " ++ toString oppId

/-- The game date: game.startedAt when truthy, else the tournament start. -/
def gameDateOf (startedAt : Option String) (startUtc : String) : String :=
  match startedAt with
  | some s => if s = "" then startUtc else s
  | none => startUtc

/-- Body of the inner for-loop of getRecentOpponents: compare the subject
finish position against participant index i and update the opponent map. -/
def gameStep (ourIdx : Nat) (ourPos : Int) (gameDate : String) (g : MPGame)
    (nameOf : List (Int × String)) (m : OppMap) (i : Nat) : OppMap :=
  if i = ourIdx then m
  else
    let oppId := g.playerIds.getD i 0
    let oppName := oppNameOf nameOf oppId
    let oppPos := posAt g i
    if oppPos = 0 then m
    else
      let r0 := (jsMapGet oppName m).getD ⟨0, 0, ""⟩
      let r1 : OppAcc :=
        { wins := r0.wins + (if ourPos < oppPos then 1 else 0)
          losses := r0.losses + (if oppPos < ourPos then 1 else 0)
          lastPlayed := if strGt gameDate r0.lastPlayed then gameDate else r0.lastPlayed }
      jsMapSet oppName r1 m

/-- Process one game of a tournament (the body of the games loop). -/
def processGame (ourPlayerId : Int) (nameOf : List (Int × String))
    (startUtc : String) (m : OppMap) (g : MPGame) : OppMap :=
  if g.status ≠ "completed" ∨ g.bye then m
  else
    match g.playerIds.findIdx? (fun pid => pid = ourPlayerId) with
    | none => m
    | some ourIdx =>
      let ourPos := posAt g ourIdx
      if ourPos = 0 then m
      else
        let gameDate := gameDateOf g.startedAt startUtc
        (List.range g.playerIds.length).foldl
          (gameStep ourIdx ourPos gameDate g nameOf) m

/-- Process one fulfilled tournament: locate the roster entry claimed by
the subject, build the playerId-to-name lookup, then walk the games. -/
def processTournament (userId : Int) (m : OppMap) (t : TournamentData) : OppMap :=
  match t.players.find? (fun p => p.claimedBy = some userId) with
  | none => m
  | some ourPlayer =>
    let nameOf := t.players.foldl (fun nm p => jsMapSet p.playerId p.name nm) []
    t.games.foldl (processGame ourPlayer.playerId nameOf t.startUtc) m

/-- Output record type RecentOpponent (lib/types.ts). -/
structure RecentOpponent where
  name : String
  wins : Nat
  losses : Nat
  totalGames : Nat
  winRate : Option ℚ
  lastPlayed : String
deriving DecidableEq

/-- Map an accumulated entry to the output record (step 4). -/
def toRecentOpponent (e : String × OppAcc) : RecentOpponent :=
  let total := e.2.wins + e.2.losses
  { name := e.1
    wins := e.2.wins
    losses := e.2.losses
    totalGames := total
    winRate := if total > 0 then some ((e.2.wins : ℚ) / (total : ℚ)) else none
    lastPlayed := e.2.lastPlayed }

/-- The sort order used in step 4: descending by lastPlayed.  The source
comparator is (a, b) => b.lastPlayed.localeCompare(a.lastPlayed); on the
ISO-8601 timestamps involved this is lexicographic string comparison.
Array.prototype.sort is stable, modelled by a stable insertion sort. -/
def oppLE (a b : RecentOpponent) : Prop := strLe b.lastPlayed a.lastPlayed = true

instance : DecidableRel oppLE := fun a b => by
  unfold oppLE; infer_instance

/-- Steps 3 and 4 of getRecentOpponents (lib/providers/matchplay.ts):
given the settled per-tournament fetch outcomes (step 2), accumulate
win/loss records per opponent name, skipping rejected tournaments, then
sort descending by last-encounter timestamp and keep the first 10.
Steps 1 and 2 (the network fetches and the slice to the 5 most recent
tournaments) supply the tourneyData argument. -/
def getRecentOpponents (userId : Int)
    (tourneyData : List (Except Unit TournamentData)) : List RecentOpponent :=
  let m := tourneyData.foldl
    (fun m r => match r with
      | .ok t => processTournament userId m t
      | .error _ => m) []
  (List.insertionSort oppLE (m.map toRecentOpponent)).take 10

-- ── Observation helpers for the opponent map ─────────────────────────

/-- Wins recorded against opponent name n (0 when no entry exists). -/
def winsOf (m : OppMap) (n : String) : Nat :=
  ((jsMapGet n m).getD ⟨0, 0, ""⟩).wins

/-- Losses recorded against opponent name n (0 when no entry exists). -/
def lossesOf (m : OppMap) (n : String) : Nat :=
  ((jsMapGet n m).getD ⟨0, 0, ""⟩).losses

/-- In a qualifying game, the number of participant slots that stand for
opponent name n with a recorded finish position strictly worse (greater)
than the subject position: each contributes exactly one win. -/
def winContrib (g : MPGame) (ourIdx : Nat) (ourPos : Int)
    (nameOf : List (Int × String)) (n : String) : Nat :=
  (List.range g.playerIds.length).countP
    (fun i => decide (i ≠ ourIdx ∧ oppNameOf nameOf (g.playerIds.getD i 0) = n ∧
      posAt g i ≠ 0 ∧ ourPos < posAt g i))

/-- Dual of winContrib: slots with a strictly better (lower) recorded
finish position than the subject, each contributing exactly one loss. -/
def lossContrib (g : MPGame) (ourIdx : Nat) (ourPos : Int)
    (nameOf : List (Int × String)) (n : String) : Nat :=
  (List.range g.playerIds.length).countP
    (fun i => decide (i ≠ ourIdx ∧ oppNameOf nameOf (g.playerIds.getD i 0) = n ∧
      posAt g i ≠ 0 ∧ posAt g i < ourPos))

theorem jsMapGet_set_self {α β : Type} [DecidableEq α] (k : α) (v : β)
    (m : List (α × β)) : jsMapGet k (jsMapSet k v m) = some v := by
  induction m with
  | nil => simp [jsMapSet, jsMapGet, List.find?]
  | cons e rest ih =>
    obtain ⟨k0, v0⟩ := e
    by_cases h : k0 = k
    · simp [jsMapSet, h, jsMapGet, List.find?]
    · simpa [jsMapSet, h, jsMapGet, List.find?] using ih

theorem jsMapGet_set_ne {α β : Type} [DecidableEq α] {k k' : α} (v : β)
    (m : List (α × β)) (h : k' ≠ k) :
    jsMapGet k' (jsMapSet k v m) = jsMapGet k' m := by
  have hk : k ≠ k' := fun e => h e.symm
  induction m with
  | nil => simp [jsMapSet, jsMapGet, List.find?, hk]
  | cons e rest ih =>
    obtain ⟨k0, v0⟩ := e
    by_cases h0 : k0 = k
    · subst h0
      simp [jsMapSet, jsMapGet, List.find?, hk]
    · simp only [jsMapSet, if_neg h0]
      by_cases h1 : k0 = k'
      · subst h1
        simp [jsMapGet, List.find?]
      · simpa [jsMapGet, List.find?, h1] using ih

theorem winsOf_gameStep (ourIdx : Nat) (ourPos : Int) (gameDate : String)
    (g : MPGame) (nameOf : List (Int × String)) (m : OppMap) (i : Nat)
    (n : String) :
    winsOf (gameStep ourIdx ourPos gameDate g nameOf m i) n =
      winsOf m n +
        (if i ≠ ourIdx ∧ oppNameOf nameOf (g.playerIds.getD i 0) = n ∧
            posAt g i ≠ 0 ∧ ourPos < posAt g i then 1 else 0) := by
  unfold gameStep
  by_cases hi : i = ourIdx
  · simp [hi]
  · by_cases hp : posAt g i = 0
    · simp [hi, hp]
    · by_cases hn : oppNameOf nameOf (g.playerIds.getD i 0) = n
      · subst hn
        by_cases hw : ourPos < posAt g i <;>
          simp [hi, hp, hw, winsOf, jsMapGet_set_self]
      · simp only [hi, hp, if_neg, ite_false, hn]
        rw [winsOf, jsMapGet_set_ne _ _ (fun h => hn h.symm)]
        simp [winsOf, hn, hi, hp]

theorem lossesOf_gameStep (ourIdx : Nat) (ourPos : Int) (gameDate : String)
    (g : MPGame) (nameOf : List (Int × String)) (m : OppMap) (i : Nat)
    (n : String) :
    lossesOf (gameStep ourIdx ourPos gameDate g nameOf m i) n =
      lossesOf m n +
        (if i ≠ ourIdx ∧ oppNameOf nameOf (g.playerIds.getD i 0) = n ∧
            posAt g i ≠ 0 ∧ posAt g i < ourPos then 1 else 0) := by
  unfold gameStep
  by_cases hi : i = ourIdx
  · simp [hi]
  · by_cases hp : posAt g i = 0
    · simp [hi, hp]
    · by_cases hn : oppNameOf nameOf (g.playerIds.getD i 0) = n
      · subst hn
        by_cases hw : posAt g i < ourPos <;>
          simp [hi, hp, hw, lossesOf, jsMapGet_set_self]
      · simp only [hi, hp, if_neg, ite_false, hn]
        rw [lossesOf, jsMapGet_set_ne _ _ (fun h => hn h.symm)]
        simp [lossesOf, hn, hi, hp]

theorem winsOf_foldl_gameStep (ourIdx : Nat) (ourPos : Int) (gameDate : String)
    (g : MPGame) (nameOf : List (Int × String)) (n : String)
    (l : List Nat) (m : OppMap) :
    winsOf (l.foldl (gameStep ourIdx ourPos gameDate g nameOf) m) n =
      winsOf m n + l.countP
        (fun i => decide (i ≠ ourIdx ∧ oppNameOf nameOf (g.playerIds.getD i 0) = n ∧
          posAt g i ≠ 0 ∧ ourPos < posAt g i)) := by
  induction l generalizing m with
  | nil => simp
  | cons i rest ih =>
    rw [List.foldl_cons, ih, winsOf_gameStep, List.countP_cons]
    simp only [decide_eq_true_eq]
    omega

theorem lossesOf_foldl_gameStep (ourIdx : Nat) (ourPos : Int) (gameDate : String)
    (g : MPGame) (nameOf : List (Int × String)) (n : String)
    (l : List Nat) (m : OppMap) :
    lossesOf (l.foldl (gameStep ourIdx ourPos gameDate g nameOf) m) n =
      lossesOf m n + l.countP
        (fun i => decide (i ≠ ourIdx ∧ oppNameOf nameOf (g.playerIds.getD i 0) = n ∧
          posAt g i ≠ 0 ∧ posAt g i < ourPos)) := by
  induction l generalizing m with
  | nil => simp
  | cons i rest ih =>
    rw [List.foldl_cons, ih, lossesOf_gameStep, List.countP_cons]
    simp only [decide_eq_true_eq]
    omega

-- ── Order lemmas for the lexicographic string comparison ─────────────

theorem lexLe_total (a b : List Char) : lexLe a b = true ∨ lexLe b a = true := by
  induction a generalizing b with
  | nil => left; simp [lexLe]
  | cons x xs ih =>
    cases b with
    | nil => right; simp [lexLe]
    | cons y ys =>
      rcases lt_trichotomy x y with h | h | h
      · left; simp [lexLe, h]
      · subst h
        rcases ih ys with h' | h'
        · left; simp [lexLe, lt_irrefl, h']
        · right; simp [lexLe, lt_irrefl, h']
      · right; simp [lexLe, h]

theorem lexLe_trans {a b c : List Char} (h1 : lexLe a b = true)
    (h2 : lexLe b c = true) : lexLe a c = true := by
  induction a generalizing b c with
  | nil => simp [lexLe]
  | cons x xs ih =>
    cases b with
    | nil => simp [lexLe] at h1
    | cons y ys =>
      cases c with
      | nil => simp [lexLe] at h2
      | cons z zs =>
        rcases lt_trichotomy x y with hxy | hxy | hxy
        · rcases lt_trichotomy y z with hyz | hyz | hyz
          · simp [lexLe, lt_trans hxy hyz]
          · subst hyz; simp [lexLe, hxy]
          · simp [lexLe, not_lt_of_gt hyz, ne_of_gt hyz] at h2
        · subst hxy
          rcases lt_trichotomy x z with h | h | h
          · simp [lexLe, h]
          · subst h
            simp only [lexLe, lt_irrefl, if_false, if_pos rfl] at h1 h2 ⊢
            exact ih h1 h2
          · simp [lexLe, not_lt_of_gt h, ne_of_gt h] at h2
        · simp [lexLe, not_lt_of_gt hxy, ne_of_gt hxy] at h1

theorem strLe_total (a b : String) : strLe a b = true ∨ strLe b a = true :=
  lexLe_total a.toList b.toList

theorem strLe_trans {a b c : String} (h1 : strLe a b = true)
    (h2 : strLe b c = true) : strLe a c = true :=
  lexLe_trans h1 h2

-- ── Concrete data for the 4-player example of the specification ──────

/-- A completed 4-player game where the subject (local id 100) finished
first and the opponents finished 2nd, 3rd, 4th. -/
def gC1 : MPGame :=
  { status := "completed", bye := false
    startedAt := some "2024-05-01T10:00:00Z"
    playerIds := [100, 200, 300, 400]
    resultPositions := [1, 2, 3, 4] }

/-- Name lookup for the example game. -/
def nameOfC1 : List (Int × String) :=
  [(100, "Subject"), (200, "Bob"), (300, "Carol"), (400, "Dan")]

/-- C1: a game contributes to the opponent records only when its status is
"completed", it is not a bye, the subject appears among its participants
and the subject finish position is recorded (truthy); in a qualifying game
the wins recorded against opponent name n grow by exactly the number of
other recorded participants of that name the subject strictly beat, and
the losses by exactly the number that strictly beat the subject (equal
positions counted in neither, since both counts require a strict
inequality). -/
theorem c1_opponent_contribution (ourPlayerId : Int) (nameOf : List (Int × String))
    (startUtc : String) (m : OppMap) (g : MPGame) (n : String) :
    ((g.status ≠ "completed" ∨ g.bye = true) →
        processGame ourPlayerId nameOf startUtc m g = m) ∧
    (g.playerIds.findIdx? (fun pid => pid = ourPlayerId) = none →
        processGame ourPlayerId nameOf startUtc m g = m) ∧
    (∀ ourIdx, g.playerIds.findIdx? (fun pid => pid = ourPlayerId) = some ourIdx →
        posAt g ourIdx = 0 → processGame ourPlayerId nameOf startUtc m g = m) ∧
    (∀ ourIdx, g.playerIds.findIdx? (fun pid => pid = ourPlayerId) = some ourIdx →
        g.status = "completed" → g.bye = false → posAt g ourIdx ≠ 0 →
        winsOf (processGame ourPlayerId nameOf startUtc m g) n =
          winsOf m n + winContrib g ourIdx (posAt g ourIdx) nameOf n ∧
        lossesOf (processGame ourPlayerId nameOf startUtc m g) n =
          lossesOf m n + lossContrib g ourIdx (posAt g ourIdx) nameOf n) := by
  refine ⟨?_, ?_, ?_, ?_⟩
  · intro h
    unfold processGame
    rw [if_pos h]
  · intro h
    unfold processGame
    split
    · rfl
    · rw [h]
  · intro ourIdx h hp
    unfold processGame
    split
    · rfl
    · rw [h]
      simp [hp]
  · intro ourIdx h hs hb hp
    unfold processGame
    rw [if_neg (by simp [hs, hb]), h]
    simp only [hp, if_false, ite_false]
    constructor
    · rw [winsOf_foldl_gameStep]; rfl
    · rw [lossesOf_foldl_gameStep]; rfl

/-- Witness for C1: the specification example.  Subject finished 1st in a
completed 4-player game with opponents Bob, Carol, Dan at 2, 3, 4: exactly
one win and zero losses are recorded against each opponent. -/
theorem c1_opponent_contribution_witness :
    winsOf (processGame 100 nameOfC1 "2024-05-01T09:00:00Z" [] gC1) "Bob" = 1 ∧
    lossesOf (processGame 100 nameOfC1 "2024-05-01T09:00:00Z" [] gC1) "Bob" = 0 ∧
    winsOf (processGame 100 nameOfC1 "2024-05-01T09:00:00Z" [] gC1) "Carol" = 1 ∧
    lossesOf (processGame 100 nameOfC1 "2024-05-01T09:00:00Z" [] gC1) "Carol" = 0 ∧
    winsOf (processGame 100 nameOfC1 "2024-05-01T09:00:00Z" [] gC1) "Dan" = 1 ∧
    lossesOf (processGame 100 nameOfC1 "2024-05-01T09:00:00Z" [] gC1) "Dan" = 0 := by
  obtain ⟨hbw, hbl⟩ :=
    (c1_opponent_contribution 100 nameOfC1 "2024-05-01T09:00:00Z" [] gC1 "Bob").2.2.2
      0 (by decide) (by decide) (by decide) (by decide)
  obtain ⟨hcw, hcl⟩ :=
    (c1_opponent_contribution 100 nameOfC1 "2024-05-01T09:00:00Z" [] gC1 "Carol").2.2.2
      0 (by decide) (by decide) (by decide) (by decide)
  obtain ⟨hdw, hdl⟩ :=
    (c1_opponent_contribution 100 nameOfC1 "2024-05-01T09:00:00Z" [] gC1 "Dan").2.2.2
      0 (by decide) (by decide) (by decide) (by decide)
  refine ⟨?_, ?_, ?_, ?_, ?_, ?_⟩
  · rw [hbw]; decide
  · rw [hbl]; decide
  · rw [hcw]; decide
  · rw [hcl]; decide
  · rw [hdw]; decide
  · rw [hdl]; decide

/-- C2: every returned OpponentRecord satisfies totalGames = wins + losses
and winRate = wins/(wins+losses), null exactly when wins + losses = 0;
ties never enter the computation (the denominator is the win/loss sum). -/
theorem c2_winRate_invariant (userId : Int) (td : List (Except Unit TournamentData))
    (r : RecentOpponent) (h : r ∈ getRecentOpponents userId td) :
    r.totalGames = r.wins + r.losses ∧
    r.winRate = (if r.wins + r.losses = 0 then none
      else some ((r.wins : ℚ) / ((r.wins + r.losses : Nat) : ℚ))) := by
  unfold getRecentOpponents at h
  have h1 := List.take_subset _ _ h
  rw [List.mem_insertionSort] at h1
  obtain ⟨e, -, rfl⟩ := List.mem_map.mp h1
  refine ⟨rfl, ?_⟩
  by_cases h0 : e.2.wins + e.2.losses = 0
  · simp [toRecentOpponent, h0]
  · simp [toRecentOpponent, h0, Nat.pos_of_ne_zero h0]

/-- A completed 2-player game ending in a tie (equal positions). -/
def gTie : MPGame :=
  { status := "completed", bye := false
    startedAt := some "2024-06-01T10:00:00Z"
    playerIds := [1, 2]
    resultPositions := [2, 2] }

/-- A tournament whose only game is the tie above; the subject is the
roster entry claimed by user 7. -/
def tTie : TournamentData :=
  { startUtc := "2024-06-01T09:00:00Z"
    players := [⟨1, "Subject", some 7⟩, ⟨2, "Bob", none⟩]
    games := [gTie] }

/-- The record produced for Bob from the tie tournament: zero decisive
games, winRate null. -/
def rTie : RecentOpponent :=
  { name := "Bob", wins := 0, losses := 0, totalGames := 0
    winRate := none, lastPlayed := "2024-06-01T10:00:00Z" }

/-- Witness for C2 at a concrete input (an all-tie opponent, so the
winRate is null and wins + losses = 0). -/
theorem c2_winRate_invariant_witness :
    rTie ∈ getRecentOpponents 7 [.ok tTie] ∧
    rTie.totalGames = rTie.wins + rTie.losses ∧
    rTie.winRate = (if rTie.wins + rTie.losses = 0 then none
      else some ((rTie.wins : ℚ) / ((rTie.wins + rTie.losses : Nat) : ℚ))) :=
  ⟨by decide, c2_winRate_invariant 7 [.ok tTie] rTie (by decide)⟩

/-- C3: the returned list never has more than 10 entries and is sorted
descending by last-encounter timestamp under lexicographic string
comparison (oppLE a b states that b.lastPlayed is at most a.lastPlayed);
the sort is a stable deterministic function of its input. -/
theorem c3_sorted_top10 (userId : Int) (td : List (Except Unit TournamentData)) :
    (getRecentOpponents userId td).length ≤ 10 ∧
    List.Sorted oppLE (getRecentOpponents userId td) := by
  constructor
  · unfold getRecentOpponents
    rw [List.length_take]
    exact min_le_left _ _
  · unfold getRecentOpponents
    haveI : IsTotal RecentOpponent oppLE := ⟨fun a b => lexLe_total _ _⟩
    haveI : IsTrans RecentOpponent oppLE :=
      ⟨fun _ _ _ h1 h2 => lexLe_trans h2 h1⟩
    exact List.Pairwise.sublist (List.take_sublist _ _)
      (List.sorted_insertionSort oppLE _)

-- ── Models of the JavaScript number/string primitives used ───────────

/-- Digit run at the head of a character list: (digits, remainder). -/
def splitDigits : List Char → List Char × List Char
  | [] => ([], [])
  | c :: cs =>
      if c.isDigit then
        let p := splitDigits cs
        (c :: p.1, p.2)
      else ([], c :: cs)

/-- Numeric value of a digit run. -/
def digitsVal (ds : List Char) : Nat :=
  ds.foldl (fun acc c => 10 * acc + (c.toNat - ('0').toNat)) 0

/-- Models parseInt(s, 10): skip leading whitespace, optional sign, then
the maximal leading digit run; NaN (here: none) when no digit follows. -/
def parseIntJs (s : String) : Option Int :=
  let cs := s.toList.dropWhile (·.isWhitespace)
  let sgncs : Bool × List Char :=
    match cs with
    | '-' :: r => (true, r)
    | '+' :: r => (false, r)
    | _ => (false, cs)
  let p := splitDigits sgncs.2
  if p.1.isEmpty then none
  else some (if sgncs.1 then -(digitsVal p.1 : Int) else (digitsVal p.1 : Int))

/-- Models Number(s) on the decimal fragment that occurs in this code:
whitespace-trimmed, empty gives 0, optional sign, digits with an optional
fraction part; anything else (including trailing junk) is NaN (none).
Exponent and hex forms never occur in the data this repository parses. -/
def jsNumber (s : String) : Option ℚ :=
  let cs := ((s.toList.dropWhile (·.isWhitespace)).reverse.dropWhile
    (·.isWhitespace)).reverse
  if cs.isEmpty then some 0
  else
    let sgncs : Bool × List Char :=
      match cs with
      | '-' :: r => (true, r)
      | '+' :: r => (false, r)
      | _ => (false, cs)
    let signed : ℚ → ℚ := fun v => if sgncs.1 then -v else v
    let ip := splitDigits sgncs.2
    match ip.2 with
    | [] => if ip.1.isEmpty then none else some (signed (digitsVal ip.1 : ℚ))
    | '.' :: rest2 =>
      let fp := splitDigits rest2
      if ¬ fp.2.isEmpty then none
      else if ip.1.isEmpty ∧ fp.1.isEmpty then none
      else some (signed ((digitsVal ip.1 : ℚ) +
        (digitsVal fp.1 : ℚ) / (10 : ℚ) ^ fp.1.length))
    | _ => none

/-- A JSON field value as this code meets them: null, a string, or a
number (undefined is modelled as the absence of the surrounding Option). -/
inductive JsonVal where
  | jNull
  | jStr (s : String)
  | jNum (q : ℚ)
deriving DecidableEq

/-- Models Number(x) applied to a possibly-undefined field: undefined is
NaN, null is 0, a number is itself, a string is parsed. -/
def jsNumberVal : Option JsonVal → Option ℚ
  | none => none
  | some .jNull => some 0
  | some (.jNum q) => some q
  | some (.jStr s) => jsNumber s

/-- Models String.prototype.trim. -/
def strTrim (s : String) : String :=
  ⟨((s.toList.dropWhile (·.isWhitespace)).reverse.dropWhile
    (·.isWhitespace)).reverse⟩

/-- Rendering of a JavaScript number for string interpolation; the values
interpolated in this code are integral. -/
def qToString (q : ℚ) : String :=
  if q.den = 1 then toString q.num
  else toString q.num ++ "/" ++ toString q.den

/-- A JavaScript number-or-null variable (the resolver's id variables can
hold null, NaN, or a number; NaN and 0 are falsy). -/
inductive JsNum where
  | null
  | nan
  | num (q : ℚ)
deriving DecidableEq

/-- JavaScript truthiness of a number-or-null value. -/
def jsTruthy : JsNum → Bool
  | .num q => q ≠ 0
  | _ => false

/-- Truthiness of a nullable string (null and the empty string are falsy). -/
def strOptTruthy : Option String → Bool
  | some s => s ≠ ""
  | none => false

/-- The id variables of resolvePlayerIds:
rawId ? parseInt(rawId, 10) : null. -/
def parsedId (raw : Option String) : JsNum :=
  match raw with
  | some s =>
      if s = "" then .null
      else match parseIntJs s with
        | none => .nan
        | some i => .num (i : ℚ)
  | none => .null

/-- String of an id for the cache key: id ?? "none" followed by template
interpolation (NaN is not nullish and prints as NaN). -/
def jsNumKeyString : JsNum → String
  | .null => "none"
  | .nan => "NaN"
  | .num q => qToString q

-- ── IFPA provider (lib/providers/ifpa.ts) ────────────────────────────

/-- The cross-link object player.matchplay_events (id arrives as text). -/
structure MatchplayEventsLink where
  id : Option JsonVal
deriving DecidableEq

/-- player.player_stats: a wrapper holding the per-system stats record. -/
structure PlayerStatsField where
  system : Option (List (String × List (String × JsonVal)))
deriving DecidableEq

/-- The IFPA player profile (fields this code reads). -/
structure IFPAPlayer where
  first_name : String
  last_name : String
  city : Option String
  stateprov : Option String
  matchplay_events : Option MatchplayEventsLink
  player_stats : Option PlayerStatsField
deriving DecidableEq

/-- One step of the getOpenStats parsing loop: skip empty-string and null
values; parse the value with Number; on NaN keep the raw value, otherwise
store the parsed number. -/
def parseStatsEntry (parsed : List (String × JsonVal))
    (kv : String × JsonVal) : List (String × JsonVal) :=
  if kv.2 = .jStr "" ∨ kv.2 = .jNull then parsed
  else
    match jsNumberVal (some kv.2) with
    | none => jsMapSet kv.1 kv.2 parsed
    | some q => jsMapSet kv.1 (.jNum q) parsed

/-- The parsing loop of getOpenStats over all entries of the raw record. -/
def parseStats (raw : List (String × JsonVal)) : List (String × JsonVal) :=
  raw.foldl parseStatsEntry []

/-- getOpenStats (lib/providers/ifpa.ts): select the open (or OPEN or
MAIN) system record and parse every string-typed numeric field. -/
def getOpenStats (player : IFPAPlayer) : Option (List (String × JsonVal)) :=
  match player.player_stats.bind (·.system) with
  | none => none
  | some system =>
    match (jsMapGet "open" system).orElse
        (fun _ => (jsMapGet "OPEN" system).orElse
          (fun _ => jsMapGet "MAIN" system)) with
    | none => none
    | some raw => some (parseStats raw)

/-- The state ranking extracted by getStateRanking (opaque to the merge). -/
structure StateRanking where
  state : String
  rank : ℚ
  points : ℚ
  year : String
deriving DecidableEq

/-- One year bucket of getEventsByYear (opaque to the merge). -/
structure EventsByYear where
  year : String
  eventCount : Nat
  totalPoints : ℚ
deriving DecidableEq

/-- The value of getPlayerData: profile plus derived pieces. -/
structure IFPAData where
  player : IFPAPlayer
  stats : Option (List (String × JsonVal))
  stateRanking : Option StateRanking
  eventsByYear : List EventsByYear
deriving DecidableEq

-- ── Match Play profile (lib/providers/matchplay.ts, getUserSummary) ──

/-- The Match Play user object (fields this code reads). -/
structure MatchPlayUser where
  name : Option String
  location : Option String
  ifpa_id : Option JsonVal
deriving DecidableEq

/-- The Match Play rating object (fields the route reads). -/
structure MatchPlayRating where
  rating : Option ℚ
  rating_class : Option ℚ
  game_count : Option ℚ
  win_count : Option ℚ
  loss_count : Option ℚ
  efficiency_percent : Option ℚ
deriving DecidableEq

/-- The Match Play aggregate counts object. -/
structure MatchPlayUserCounts where
  tournament_play_count : Option ℚ
deriving DecidableEq

/-- The result of getUserSummary: user, rating, userCounts. -/
structure MatchPlayProfileResponse where
  user : MatchPlayUser
  rating : Option MatchPlayRating
  userCounts : Option MatchPlayUserCounts
deriving DecidableEq

-- ── Rate limiter (lib/cache.ts, isRateLimited) ───────────────────────

/-- One per-key rate-limit window entry. -/
structure RateLimitEntry where
  count : Nat
  resetTime : Int
deriving DecidableEq

/-- isRateLimited (lib/cache.ts) for one key: given the clock and the
stored entry, return the decision (true = rejected) and the new entry.
A missing or expired entry starts a fresh window with count 1; within an
unexpired window the request is rejected when the count has reached
maxRequests (without incrementing), else the count increments. -/
def isRateLimited (now : Int) (maxRequests : Nat) (windowMs : Int)
    (entry : Option RateLimitEntry) : Bool × RateLimitEntry :=
  match entry with
  | none => (false, ⟨1, now + windowMs⟩)
  | some e =>
    if now > e.resetTime then (false, ⟨1, now + windowMs⟩)
    else if e.count ≥ maxRequests then (true, e)
    else (false, ⟨e.count + 1, e.resetTime⟩)

/-- Run a sequence of requests (by arrival time) against one key of the
rate limiter, collecting each decision and the final stored entry. -/
def runRateTrace (maxRequests : Nat) (windowMs : Int) (times : List Int) :
    List Bool × Option RateLimitEntry :=
  times.foldl
    (fun acc t =>
      let r := isRateLimited t maxRequests windowMs acc.2
      (acc.1 ++ [r.1], some r.2))
    ([], none)

/-- RATE_LIMIT.MAX_REQUESTS (lib/cache.ts). -/
def RATE_LIMIT_MAX_REQUESTS : Nat := 10

/-- RATE_LIMIT.WINDOW_MS (lib/cache.ts). -/
def RATE_LIMIT_WINDOW_MS : Int := 60 * 1000

-- ── Identity resolver (app/api/combined/me/route.ts) ─────────────────

/-- Settled outcomes of the two profile fetches the resolver can issue. -/
structure ResolveOracle where
  ifpaProfileFetch : Except Unit IFPAPlayer
  mpProfileFetch : Except Unit MatchPlayProfileResponse

/-- Result record of resolvePlayerIds. -/
structure ResolvedIds where
  ifpaId : JsNum
  matchPlayId : JsNum
  idMismatchWarning : Option String
deriving DecidableEq

/-- The warning text built for a cross-link mismatch. -/
def mismatchMessage (linked entered : ℚ) : String :=
  "Your IFPA account is linked to Match Play ID " ++ qToString linked ++
    ", but you entered " ++ qToString entered ++
    ". The data shown may be for different players."

/-- resolvePlayerIds (app/api/combined/me/route.ts): parse both raw
inputs; with exactly one truthy id, try the cross-link lookup to fill the
other (silently keeping it unset on fetch failure or a falsy/NaN link);
with both truthy, verify the IFPA profile cross-link against the entered
Match Play id and set the warning when a truthy non-NaN link differs. -/
def resolvePlayerIds (rawIfpaId rawMatchPlayId : Option String)
    (o : ResolveOracle) : ResolvedIds :=
  let ifpaId0 := parsedId rawIfpaId
  let matchPlayId0 := parsedId rawMatchPlayId
  if jsTruthy ifpaId0 ∧ ¬ jsTruthy matchPlayId0 then
    match o.ifpaProfileFetch with
    | .error _ => ⟨ifpaId0, matchPlayId0, none⟩
    | .ok player =>
      match jsNumberVal (player.matchplay_events.bind (·.id)) with
      | none => ⟨ifpaId0, matchPlayId0, none⟩
      | some linked =>
        if linked ≠ 0 then ⟨ifpaId0, .num linked, none⟩
        else ⟨ifpaId0, matchPlayId0, none⟩
  else if jsTruthy matchPlayId0 ∧ ¬ jsTruthy ifpaId0 then
    match o.mpProfileFetch with
    | .error _ => ⟨ifpaId0, matchPlayId0, none⟩
    | .ok profile =>
      match jsNumberVal profile.user.ifpa_id with
      | none => ⟨ifpaId0, matchPlayId0, none⟩
      | some linked =>
        if linked ≠ 0 then ⟨.num linked, matchPlayId0, none⟩
        else ⟨ifpaId0, matchPlayId0, none⟩
  else if jsTruthy ifpaId0 ∧ jsTruthy matchPlayId0 then
    match o.ifpaProfileFetch with
    | .error _ => ⟨ifpaId0, matchPlayId0, none⟩
    | .ok player =>
      match jsNumberVal (player.matchplay_events.bind (·.id)) with
      | none => ⟨ifpaId0, matchPlayId0, none⟩
      | some linked =>
        if linked ≠ 0 ∧ JsNum.num linked ≠ matchPlayId0 then
          ⟨ifpaId0, matchPlayId0,
            some (mismatchMessage linked
              (match matchPlayId0 with | .num m => m | _ => 0))⟩
        else ⟨ifpaId0, matchPlayId0, none⟩
  else ⟨ifpaId0, matchPlayId0, none⟩

-- ── The combined dashboard merge and route (route.ts, GET) ───────────

/-- The nullable IFPA block of the dashboard. -/
structure IfpaBlock where
  rank : Option JsonVal
  wppr : Option JsonVal
  lastMonthRank : Option JsonVal
  lastYearRank : Option JsonVal
  highestRank : Option JsonVal
  ratingsValue : Option JsonVal
  efficiencyValue : Option JsonVal
  totalEvents : Option JsonVal
  stateRanking : Option StateRanking
  eventsByYear : List EventsByYear
deriving DecidableEq

/-- Build the IFPA block from a fulfilled getPlayerData value. -/
def processIfpa (v : IFPAData) : IfpaBlock :=
  { rank := v.stats.bind (jsMapGet "current_rank")
    wppr := v.stats.bind (jsMapGet "current_points")
    lastMonthRank := v.stats.bind (jsMapGet "last_month_rank")
    lastYearRank := v.stats.bind (jsMapGet "last_year_rank")
    highestRank := v.stats.bind (jsMapGet "highest_rank")
    ratingsValue := v.stats.bind (jsMapGet "ratings_value")
    efficiencyValue := v.stats.bind (jsMapGet "efficiency_value")
    totalEvents := v.stats.bind (jsMapGet "total_events_all_time")
    stateRanking := v.stateRanking
    eventsByYear := v.eventsByYear }

/-- The nullable Match Play block of the dashboard. -/
structure MatchPlayBlock where
  rating : Option ℚ
  ratingClass : Option ℚ
  grade : Option String
  gameCount : Option ℚ
  winCount : Option ℚ
  lossCount : Option ℚ
  efficiencyPercent : Option ℚ
  tournamentPlayCount : Option ℚ
deriving DecidableEq

/-- The letter grade for a rating class (gradeMap with the template-string
fallback for classes outside 1..5). -/
def gradeOf (q : ℚ) : String :=
  if q = 1 then "A+"
  else if q = 2 then "A"
  else if q = 3 then "B"
  else if q = 4 then "C"
  else if q = 5 then "D"
  else qToString q

/-- Build the Match Play block from a fulfilled getUserSummary value. -/
def processMatchPlay (v : MatchPlayProfileResponse) : MatchPlayBlock :=
  { rating := v.rating.bind (·.rating)
    ratingClass := v.rating.bind (·.rating_class)
    grade :=
      match v.rating.bind (·.rating_class) with
      | some q => if q ≠ 0 then some (gradeOf q) else none
      | none => none
    gameCount := v.rating.bind (·.game_count)
    winCount := v.rating.bind (·.win_count)
    lossCount := v.rating.bind (·.loss_count)
    efficiencyPercent := v.rating.bind (·.efficiency_percent)
    tournamentPlayCount := v.userCounts.bind (·.tournament_play_count) }

/-- The identity object of the dashboard. -/
structure PlayerIdentity where
  name : String
  location : Option String
  ifpa_id : JsNum
  matchplay_id : JsNum
deriving DecidableEq

/-- Combine identity information, preferring IFPA data, falling back to
Match Play, falling back to the Unknown Player sentinel. -/
def identityOf (ifpaSettled : Except String IFPAData)
    (mpSettled : Except String MatchPlayProfileResponse)
    (ifpaId matchPlayId : JsNum) : PlayerIdentity :=
  { name :=
      match ifpaSettled with
      | .ok v => strTrim (v.player.first_name ++ " " ++ v.player.last_name)
      | .error _ =>
        match mpSettled with
        | .ok m =>
          match m.user.name with
          | some nm => strTrim nm
          | none => "Unknown Player"
        | .error _ => "Unknown Player"
    location :=
      match ifpaSettled with
      | .ok v =>
        let joined := String.intercalate ", "
          (([v.player.city, v.player.stateprov].filterMap id).filter
            (fun s => s ≠ ""))
        if joined = "" then none else some joined
      | .error _ =>
        match mpSettled with
        | .ok m => m.user.location
        | .error _ => none
    ifpa_id := ifpaId
    matchplay_id := matchPlayId }

/-- The unified dashboard record (lib/types.ts DashboardData; the
lastUpdated wall-clock timestamp is outside the model). -/
structure DashboardData where
  identity : PlayerIdentity
  ifpa : Option IfpaBlock
  matchplay : Option MatchPlayBlock
  recentOpponents : List RecentOpponent
  recentOpponentsError : Option String
  idMismatchWarning : Option String
deriving DecidableEq

/-- Lines 112-195 of route.ts: issue the three fetches for providers with
truthy resolved ids (a falsy id becomes an immediate rejection), then
assemble the dashboard from the settled outcomes.  Each slot may fail
independently; a failed slot yields an explicit null block, and the
opponents failure is recorded as a warning string only when a Match Play
fetch was actually attempted. -/
def mergeDashboard (ifpaId matchPlayId : JsNum) (mismatch : Option String)
    (ifpaData : Except String IFPAData)
    (mpData : Except String MatchPlayProfileResponse)
    (oppData : Except String (List RecentOpponent)) : DashboardData :=
  let ifpaSettled : Except String IFPAData :=
    if jsTruthy ifpaId then ifpaData else .error "No IFPA ID"
  let mpSettled : Except String MatchPlayProfileResponse :=
    if jsTruthy matchPlayId then mpData else .error "No Match Play ID"
  let oppSettled : Except String (List RecentOpponent) :=
    if jsTruthy matchPlayId then oppData else .error "No Match Play ID"
  let ifpaResult : Option IfpaBlock :=
    match ifpaSettled with
    | .ok v => some (processIfpa v)
    | .error _ => none
  let matchPlayResult : Option MatchPlayBlock :=
    match mpSettled with
    | .ok v => some (processMatchPlay v)
    | .error _ => none
  let opp : List RecentOpponent × Option String :=
    match oppSettled with
    | .ok l => (l, none)
    | .error r => ([], if jsTruthy matchPlayId then some r else none)
  { identity := identityOf ifpaSettled mpSettled ifpaId matchPlayId
    ifpa := ifpaResult
    matchplay := matchPlayResult
    recentOpponents := opp.1
    recentOpponentsError := opp.2
    idMismatchWarning := mismatch }

/-- Settled outcomes of every fetch the GET handler can issue. -/
structure FetchOracle where
  resolveOracle : ResolveOracle
  ifpaData : Except String IFPAData
  mpData : Except String MatchPlayProfileResponse
  oppData : Except String (List RecentOpponent)

/-- The possible responses of the GET handler. -/
inductive RouteResponse where
  | validationError (msg : String)
  | rateLimited (msg : String)
  | success (d : DashboardData) (cached : Bool)
deriving DecidableEq

/-- True exactly on a 400 validation response. -/
def RouteResponse.isValidation : RouteResponse → Bool
  | .validationError _ => true
  | _ => false

/-- True exactly on a 429 rate-limit response. -/
def RouteResponse.isRateLimitedResp : RouteResponse → Bool
  | .rateLimited _ => true
  | _ => false

/-- The dashboard of a success response. -/
def RouteResponse.dashboard : RouteResponse → Option DashboardData
  | .success d _ => some d
  | _ => none

/-- GET (app/api/combined/me/route.ts): validation, then the per-client
rate-limit check, then id resolution, then the cache lookup, then the
three concurrent fetches and the merge.  The per-key rate-limit state and
the clock are passed in; the cache is passed as a lookup function. -/
def routeGET (rawIfpaId rawMatchPlayId : Option String) (bypassCache : Bool)
    (now : Int) (rlEntry : Option RateLimitEntry)
    (cacheLookup : String → Option DashboardData)
    (o : FetchOracle) : RouteResponse :=
  if ¬ strOptTruthy rawIfpaId ∧ ¬ strOptTruthy rawMatchPlayId then
    .validationError "At least one player ID is required"
  else if (strOptTruthy rawIfpaId ∧ (parseIntJs (rawIfpaId.getD "")).isNone) ∨
      (strOptTruthy rawMatchPlayId ∧ (parseIntJs (rawMatchPlayId.getD "")).isNone) then
    .validationError "Invalid player IDs"
  else if (isRateLimited now RATE_LIMIT_MAX_REQUESTS RATE_LIMIT_WINDOW_MS rlEntry).1 then
    .rateLimited "Rate limit exceeded. Please try again later."
  else
    let resolved := resolvePlayerIds rawIfpaId rawMatchPlayId o.resolveOracle
    let cacheKey := "combined:" ++ jsNumKeyString resolved.ifpaId ++ ":" ++
      jsNumKeyString resolved.matchPlayId
    match (if bypassCache then none else cacheLookup cacheKey) with
    | some cached => .success cached true
    | none =>
      .success (mergeDashboard resolved.ifpaId resolved.matchPlayId
        resolved.idMismatchWarning o.ifpaData o.mpData o.oppData) false

-- ── Lemmas for the getOpenStats parsing loop ─────────────────────────

theorem parseStats_lookup_notmem (raw : List (String × JsonVal)) (k : String)
    (h : ∀ v, (k, v) ∉ raw) :
    ∀ acc, jsMapGet k (raw.foldl parseStatsEntry acc) = jsMapGet k acc := by
  induction raw with
  | nil => intro acc; rfl
  | cons e rest ih =>
    intro acc
    obtain ⟨k0, v0⟩ := e
    have hk : k ≠ k0 := by
      intro he; subst he; exact h v0 (List.mem_cons_self _ _)
    have hrest : ∀ v, (k, v) ∉ rest := fun v hv => h v (List.mem_cons_of_mem _ hv)
    rw [List.foldl_cons, ih hrest]
    unfold parseStatsEntry
    by_cases hskip : v0 = .jStr "" ∨ v0 = .jNull
    · simp [hskip]
    · cases hj : jsNumberVal (some v0) with
      | none => simp [hskip, hj, jsMapGet_set_ne _ _ hk]
      | some q => simp [hskip, hj, jsMapGet_set_ne _ _ hk]

theorem parseStats_lookup_mem (raw : List (String × JsonVal)) (k : String)
    (v : JsonVal) (hnd : (raw.map Prod.fst).Nodup) (hmem : (k, v) ∈ raw) :
    ∀ acc, jsMapGet k (raw.foldl parseStatsEntry acc) =
      (if v = .jStr "" ∨ v = .jNull then jsMapGet k acc
       else some (match jsNumberVal (some v) with
         | none => v
         | some q => .jNum q)) := by
  induction raw with
  | nil => cases hmem
  | cons e rest ih =>
    intro acc
    obtain ⟨k0, v0⟩ := e
    simp only [List.map_cons, List.nodup_cons] at hnd
    rcases List.mem_cons.mp hmem with heq | hmem'
    · obtain ⟨hk, hv⟩ := Prod.mk.injEq .. ▸ heq
      subst hk; subst hv
      have hnot : ∀ w, (k, w) ∉ rest := by
        intro w hw
        exact hnd.1 (List.mem_map.mpr ⟨(k, w), hw, rfl⟩)
      rw [List.foldl_cons, parseStats_lookup_notmem rest k hnot]
      unfold parseStatsEntry
      by_cases hskip : v = .jStr "" ∨ v = .jNull
      · simp [hskip]
      · cases hj : jsNumberVal (some v) with
        | none => simp [hskip, hj, jsMapGet_set_self]
        | some q => simp [hskip, hj, jsMapGet_set_self]
    · have hkmem : k ∈ rest.map Prod.fst :=
        List.mem_map.mpr ⟨(k, v), hmem', rfl⟩
      have hk : k ≠ k0 := by
        intro he; subst he; exact hnd.1 hkmem
      have hacc : jsMapGet k (parseStatsEntry acc (k0, v0)) = jsMapGet k acc := by
        unfold parseStatsEntry
        by_cases hskip : v0 = .jStr "" ∨ v0 = .jNull
        · simp [hskip]
        · cases hj : jsNumberVal (some v0) with
          | none => simp [hskip, hj, jsMapGet_set_ne _ _ hk]
          | some q => simp [hskip, hj, jsMapGet_set_ne _ _ hk]
      rw [List.foldl_cons, ih hnd.2 hmem', hacc]

/-- Concrete player for the C9 counterexample: the open-system record has
one field whose value is non-empty text that does not parse as a number. -/
def pC9 : IFPAPlayer :=
  { first_name := "A", last_name := "B", city := none, stateprov := none
    matchplay_events := none
    player_stats := some ⟨some [("open", [("current_rank", .jStr "abc")])]⟩ }

/-- C9 counterexample: Number("abc") is NaN, yet getOpenStats keeps the
field, present with the raw text value — the claim says an unparseable
value must be absent from the normalized result. -/
theorem c9_counterexample :
    jsNumber "abc" = none ∧
    getOpenStats pC9 = some [("current_rank", JsonVal.jStr "abc")] := by
  constructor
  · decide
  · decide

/-- C9 amended: in the normalized stats, a field is dropped exactly when
its raw value is the empty string or null; a parseable value (text or
number) is stored as the parsed number; a non-empty value that fails to
parse (NaN) is kept with its raw value (not dropped); no other keys
appear. -/
theorem c9_amended_stats_parsing (player : IFPAPlayer)
    (system : List (String × List (String × JsonVal)))
    (raw : List (String × JsonVal))
    (hsys : player.player_stats.bind (fun w => w.system) = some system)
    (hopen : jsMapGet "open" system = some raw)
    (hnd : (raw.map Prod.fst).Nodup) :
    getOpenStats player = some (parseStats raw) ∧
    (∀ k v, (k, v) ∈ raw →
      jsMapGet k (parseStats raw) =
        (if v = .jStr "" ∨ v = .jNull then none
         else some (match jsNumberVal (some v) with
           | none => v
           | some q => .jNum q))) ∧
    (∀ k, (∀ v, (k, v) ∉ raw) → jsMapGet k (parseStats raw) = none) := by
  refine ⟨?_, ?_, ?_⟩
  · unfold getOpenStats
    rw [hsys]
    simp [hopen]
  · intro k v hmem
    have h := parseStats_lookup_mem raw k v hnd hmem []
    unfold parseStats
    rw [h]
    rfl
  · intro k hk
    have h := parseStats_lookup_notmem raw k hk []
    unfold parseStats
    rw [h]
    rfl

/-- Witness for the amended C9 theorem: a record with an empty field (
dropped), a textual numeric field (parsed), and an unparseable field
(kept raw). -/
theorem c9_amended_stats_parsing_witness :
    getOpenStats pC9 = some (parseStats [("current_rank", JsonVal.jStr "abc")]) ∧
    jsMapGet "current_rank" (parseStats [("current_rank", JsonVal.jStr "abc")]) =
      some (JsonVal.jStr "abc") ∧
    jsMapGet "current_points" (parseStats [("current_rank", JsonVal.jStr "abc")]) =
      none := by
  obtain ⟨h1, h2, h3⟩ := c9_amended_stats_parsing pC9
    [("open", [("current_rank", JsonVal.jStr "abc")])]
    [("current_rank", JsonVal.jStr "abc")] (by decide) (by decide) (by decide)
  refine ⟨h1, ?_, ?_⟩
  · rw [h2 "current_rank" (JsonVal.jStr "abc") (by decide)]
    decide
  · refine h3 "current_points" ?_
    intro v hv
    have h : ("current_points" : String) = "current_rank" :=
      congrArg Prod.fst (List.mem_singleton.mp hv)
    exact absurd h (by decide)

-- ── C7: cross-link verification in the both-supplied branch ──────────

/-- The mismatch warning text is never empty. -/
theorem mismatchMessage_length_pos (q m : ℚ) :
    0 < (mismatchMessage q m).length := by
  unfold mismatchMessage
  rw [String.length_append, String.length_append, String.length_append,
    String.length_append]
  have h : 0 < ("Your IFPA account is linked to Match Play ID " : String).length := by
    decide
  omega

/-- IFPA profile whose Match Play cross-link is the text "0". -/
def pC7 : IFPAPlayer :=
  { first_name := "A", last_name := "B", city := none, stateprov := none
    matchplay_events := some ⟨some (.jStr "0")⟩, player_stats := none }

/-- Resolver oracle for the C7 counterexample. -/
def oC7 : ResolveOracle :=
  { ifpaProfileFetch := .ok pC7, mpProfileFetch := .error () }

/-- C7 counterexample: with both ids supplied, a verifying fetch that
succeeds and a cross-link that parses to the number 0, different from the
supplied Match Play id 5, the code sets no warning (0 is falsy and fails
the truthiness guard), though the claim requires a non-empty warning for
every parsed number that differs. -/
theorem c7_counterexample :
    jsNumberVal (pC7.matchplay_events.bind (fun l => l.id)) = some 0 ∧
    parsedId (some "5") = .num 5 ∧ (0 : ℚ) ≠ 5 ∧
    resolvePlayerIds (some "1") (some "5") oC7 =
      ⟨.num 1, .num 5, none⟩ := by
  refine ⟨by decide, by decide, by decide, by decide⟩

/-- C7 amended: when both ids are supplied (truthy), both supplied ids are
always returned unchanged; no warning is set when the verifying fetch
fails, when the cross-link is absent or unparseable (NaN), when it parses
to the falsy number 0, or when it equals the supplied id; the warning is
set to the non-empty mismatch text exactly when the link parses to a
nonzero number different from the supplied Match Play id. -/
theorem c7_amended_mismatch_warning (rawA rawB : Option String)
    (o : ResolveOracle)
    (hA : jsTruthy (parsedId rawA) = true)
    (hB : jsTruthy (parsedId rawB) = true) :
    (resolvePlayerIds rawA rawB o).ifpaId = parsedId rawA ∧
    (resolvePlayerIds rawA rawB o).matchPlayId = parsedId rawB ∧
    (∀ e, o.ifpaProfileFetch = .error e →
      (resolvePlayerIds rawA rawB o).idMismatchWarning = none) ∧
    (∀ p, o.ifpaProfileFetch = .ok p →
      (jsNumberVal (p.matchplay_events.bind (fun l => l.id)) = none →
        (resolvePlayerIds rawA rawB o).idMismatchWarning = none) ∧
      (∀ q, jsNumberVal (p.matchplay_events.bind (fun l => l.id)) = some q →
        ((q = 0 ∨ JsNum.num q = parsedId rawB) →
          (resolvePlayerIds rawA rawB o).idMismatchWarning = none) ∧
        (q ≠ 0 → JsNum.num q ≠ parsedId rawB →
          ∀ m, parsedId rawB = .num m →
            (resolvePlayerIds rawA rawB o).idMismatchWarning =
              some (mismatchMessage q m) ∧
            0 < (mismatchMessage q m).length))) := by
  cases hf : o.ifpaProfileFetch with
  | error e0 =>
    have hr : resolvePlayerIds rawA rawB o = ⟨parsedId rawA, parsedId rawB, none⟩ := by
      unfold resolvePlayerIds
      simp [hA, hB, hf]
    refine ⟨by rw [hr], by rw [hr], fun e _ => by rw [hr], fun p hp => ?_⟩
    cases hp
  | ok p0 =>
    refine ⟨?_, ?_, fun e he => ?_, fun p hp => ?_⟩
    · unfold resolvePlayerIds
      simp only [hA, hB]
      cases hj : jsNumberVal (p0.matchplay_events.bind (fun l => l.id)) with
      | none => simp [hf, hj]
      | some q =>
        by_cases hcond : q ≠ 0 ∧ JsNum.num q ≠ parsedId rawB <;>
          simp [hf, hj, hcond]
    · unfold resolvePlayerIds
      simp only [hA, hB]
      cases hj : jsNumberVal (p0.matchplay_events.bind (fun l => l.id)) with
      | none => simp [hf, hj]
      | some q =>
        by_cases hcond : q ≠ 0 ∧ JsNum.num q ≠ parsedId rawB <;>
          simp [hf, hj, hcond]
    · cases he
    · injection hp with hp'
      subst hp'
      constructor
      · intro hj
        unfold resolvePlayerIds
        simp [hA, hB, hf, hj]
      · intro q hj
        constructor
        · intro hq
          unfold resolvePlayerIds
          have hcond : ¬ (q ≠ 0 ∧ JsNum.num q ≠ parsedId rawB) := by
            rcases hq with hq | hq
            · intro hc; exact hc.1 hq
            · intro hc; exact hc.2 hq
          simp [hA, hB, hf, hj, hcond]
        · intro hq0 hqne m hm
          refine ⟨?_, mismatchMessage_length_pos q m⟩
          unfold resolvePlayerIds
          have hcond : q ≠ 0 ∧ JsNum.num q ≠ parsedId rawB := ⟨hq0, hqne⟩
          have hmt : jsTruthy (JsNum.num m) = true := hm ▸ hB
          have hqm : q ≠ m := fun e => hqne (by rw [hm, e])
          simp only [hA, hB, hf, hj, hm]
          simp [hcond, hm, hmt, hqm]

/-- IFPA profile whose Match Play cross-link is the text "7". -/
def pC7w : IFPAPlayer :=
  { first_name := "A", last_name := "B", city := none, stateprov := none
    matchplay_events := some ⟨some (.jStr "7")⟩, player_stats := none }

/-- Resolver oracle for the C7 witness. -/
def oC7w : ResolveOracle :=
  { ifpaProfileFetch := .ok pC7w, mpProfileFetch := .error () }

/-- Witness for the amended C7 theorem: ids "1" and "5" supplied, the
cross-link parses to 7, so a non-empty warning is set and both supplied
ids are returned unchanged. -/
theorem c7_amended_mismatch_warning_witness :
    (resolvePlayerIds (some "1") (some "5") oC7w).ifpaId = parsedId (some "1") ∧
    (resolvePlayerIds (some "1") (some "5") oC7w).matchPlayId = parsedId (some "5") ∧
    (resolvePlayerIds (some "1") (some "5") oC7w).idMismatchWarning =
      some (mismatchMessage 7 5) ∧
    0 < (mismatchMessage 7 5).length := by
  obtain ⟨h1, h2, -, h4⟩ := c7_amended_mismatch_warning (some "1") (some "5")
    oC7w (by decide) (by decide)
  obtain ⟨-, h5⟩ := h4 pC7w rfl
  obtain ⟨-, h6⟩ := h5 7 (by decide)
  obtain ⟨h7, h8⟩ := h6 (by decide) (by decide) 5 (by decide)
  exact ⟨h1, h2, h7, h8⟩

-- ── C8: the rate-limit check ─────────────────────────────────────────

/-- Claim-side predicate, following the claim words: a request at time t
is rejected exactly when maxCount or more requests occurred within the
windowMs preceding it. -/
def specSlidingWindowLimited (history : List Int) (t : Int) (maxCount : Nat)
    (windowMs : Int) : Bool :=
  maxCount ≤ (history.filter (fun s => decide (t - windowMs < s) && decide (s ≤ t))).length

/-- A request trace distinguishing the code from a sliding window: one
early request anchors the window, nine arrive near its end, the window
expires and resets, four more arrive. -/
def c8Trace : List Int :=
  [0, 59000, 59001, 59002, 59003, 59004, 59005, 59006, 59007, 59008,
   60001, 60002, 60003, 60004]

/-- C8 counterexample: every request of the trace is admitted, and the
next request at t = 60005 is also admitted by the code, although 13
requests occurred within the preceding 60000 ms, so a sliding-window
check with budget 10 would reject it. -/
theorem c8_counterexample :
    (runRateTrace 10 60000 c8Trace).1 = List.replicate 14 false ∧
    (isRateLimited 60005 10 60000 (runRateTrace 10 60000 c8Trace).2).1 = false ∧
    specSlidingWindowLimited c8Trace 60005 10 60000 = true := by
  refine ⟨by decide, by decide, by decide⟩

/-- C8 amended: the limiter is a fixed window per key: a request is
rejected exactly when an unexpired stored window entry exists whose count
has already reached maxRequests (a rejection does not increment the
count); and in the route the check runs after input validation and before
any fetch, so a rate-limited request is answered 429 for every possible
fetch outcome. -/
theorem c8_amended_fixed_window (now : Int) (maxRequests : Nat)
    (windowMs : Int) (entry : Option RateLimitEntry) :
    ((isRateLimited now maxRequests windowMs entry).1 = true ↔
      ∃ e, entry = some e ∧ now ≤ e.resetTime ∧ maxRequests ≤ e.count) ∧
    (∀ rawA rawB bypass cacheL o,
      ¬ (¬ strOptTruthy rawA ∧ ¬ strOptTruthy rawB) →
      ¬ ((strOptTruthy rawA ∧ (parseIntJs (rawA.getD "")).isNone) ∨
         (strOptTruthy rawB ∧ (parseIntJs (rawB.getD "")).isNone)) →
      (isRateLimited now RATE_LIMIT_MAX_REQUESTS RATE_LIMIT_WINDOW_MS entry).1 = true →
      routeGET rawA rawB bypass now entry cacheL o =
        .rateLimited "Rate limit exceeded. Please try again later.") := by
  constructor
  · unfold isRateLimited
    cases entry with
    | none => simp
    | some e =>
      by_cases h1 : now > e.resetTime
      · simp [h1, not_le.mpr h1]
      · by_cases h2 : e.count ≥ maxRequests
        · simp [h1, h2, not_lt.mp h1]
        · simp [h1, h2]
  · intro rawA rawB bypass cacheL o h1 h2 h3
    unfold routeGET
    rw [if_neg h1, if_neg h2, if_pos h3]

/-- A fetch oracle in which every fetch fails. -/
def oErr : FetchOracle :=
  { resolveOracle := ⟨.error (), .error ()⟩
    ifpaData := .error "e", mpData := .error "e", oppData := .error "e" }

/-- Witness for the amended C8 theorem: a full unexpired window rejects,
and the route answers 429 whatever the fetch outcomes would have been. -/
theorem c8_amended_fixed_window_witness :
    (isRateLimited 50 10 60000 (some ⟨10, 100⟩)).1 = true ∧
    routeGET (some "1") none false 50 (some ⟨10, 100⟩) (fun _ => none) oErr =
      .rateLimited "Rate limit exceeded. Please try again later." := by
  obtain ⟨hiff, hroute⟩ := c8_amended_fixed_window 50 10 60000 (some ⟨10, 100⟩)
  refine ⟨hiff.mpr ⟨⟨10, 100⟩, rfl, by decide, by decide⟩, ?_⟩
  have h := c8_amended_fixed_window 50 RATE_LIMIT_MAX_REQUESTS
    RATE_LIMIT_WINDOW_MS (some ⟨10, 100⟩)
  exact h.2 (some "1") none false (fun _ => none) oErr (by decide) (by decide)
    (by decide)

-- ── C6: input validation ─────────────────────────────────────────────

/-- A valid non-negative integer literal, following the words of the
specification (claim-side definition for the refinement comparison). -/
def isNonNegIntLiteral (s : String) : Bool :=
  ! s.isEmpty && s.toList.all (·.isDigit)

/-- Claim-side rejection predicate: both inputs absent, or a present
input is not a valid non-negative integer literal. -/
def specValidationRejects (rawA rawB : Option String) : Bool :=
  (rawA.isNone && rawB.isNone) ||
  (match rawA with | some s => ! isNonNegIntLiteral s | none => false) ||
  (match rawB with | some s => ! isNonNegIntLiteral s | none => false)

/-- The condition under which the code answers 400 (lines 71-85 of
route.ts): both inputs falsy, or a truthy input whose parseInt is NaN. -/
def validationRejected (rawA rawB : Option String) : Prop :=
  (¬ strOptTruthy rawA ∧ ¬ strOptTruthy rawB) ∨
  ((strOptTruthy rawA ∧ (parseIntJs (rawA.getD "")).isNone) ∨
   (strOptTruthy rawB ∧ (parseIntJs (rawB.getD "")).isNone))

instance (rawA rawB : Option String) : Decidable (validationRejected rawA rawB) := by
  unfold validationRejected; infer_instance

/-- C6 counterexample: "-5" is present and is not a non-negative integer
literal, so the claim demands a ValidationError, but parseInt("-5") is -5
(not NaN) and the code does not reject the request. -/
theorem c6_counterexample :
    specValidationRejects (some "-5") none = true ∧
    (routeGET (some "-5") none true 0 none (fun _ => none) oErr).isValidation
      = false := by
  refine ⟨by decide, by decide⟩

/-- C6 amended: the request is answered 400, before any fetch, exactly
when both inputs are absent or empty, or a present input has no parseable
leading integer (parseInt NaN); any input with a parseable integer prefix
(including negative or trailing-garbage forms) passes validation. -/
theorem c6_amended_validation (rawA rawB : Option String) (bypass : Bool)
    (now : Int) (rl : Option RateLimitEntry)
    (cacheL : String → Option DashboardData) (o : FetchOracle) :
    ((routeGET rawA rawB bypass now rl cacheL o).isValidation = true ↔
      validationRejected rawA rawB) ∧
    (validationRejected rawA rawB →
      routeGET rawA rawB bypass now rl cacheL o =
        .validationError (if ¬ strOptTruthy rawA ∧ ¬ strOptTruthy rawB
          then "At least one player ID is required"
          else "Invalid player IDs")) := by
  by_cases h1 : (¬ strOptTruthy rawA ∧ ¬ strOptTruthy rawB)
  · constructor
    · rw [routeGET, if_pos h1]
      constructor
      · intro _; exact Or.inl h1
      · intro _; rfl
    · intro _
      rw [routeGET, if_pos h1, if_pos h1]
  · by_cases h2 : ((strOptTruthy rawA ∧ (parseIntJs (rawA.getD "")).isNone) ∨
        (strOptTruthy rawB ∧ (parseIntJs (rawB.getD "")).isNone))
    · constructor
      · rw [routeGET, if_neg h1, if_pos h2]
        constructor
        · intro _; exact Or.inr h2
        · intro _; rfl
      · intro _
        rw [routeGET, if_neg h1, if_pos h2, if_neg h1]
    · have hno : ¬ validationRejected rawA rawB := by
        unfold validationRejected
        intro h
        rcases h with h | h
        · exact h1 h
        · exact h2 h
      constructor
      · rw [routeGET, if_neg h1, if_neg h2]
        by_cases h3 : (isRateLimited now RATE_LIMIT_MAX_REQUESTS
            RATE_LIMIT_WINDOW_MS rl).1 = true
        · simp only [h3, if_true]
          simp [RouteResponse.isValidation, hno]
        · simp only [h3, if_false]
          cases hcl : (if bypass then none else cacheL
              ("combined:" ++ jsNumKeyString (resolvePlayerIds rawA rawB
                o.resolveOracle).ifpaId ++ ":" ++ jsNumKeyString
                (resolvePlayerIds rawA rawB o.resolveOracle).matchPlayId)) with
          | none => simp [hcl, RouteResponse.isValidation, hno]
          | some d => simp [hcl, RouteResponse.isValidation, hno]
      · intro h
        exact absurd h hno

/-- Witness for the amended C6 theorem: with both inputs absent the route
answers the missing-identifier validation error. -/
theorem c6_amended_validation_witness :
    routeGET none none false 0 none (fun _ => none) oErr =
      .validationError "At least one player ID is required" := by
  have h := (c6_amended_validation none none false 0 none (fun _ => none) oErr).2
    (Or.inl (by decide))
  simpa using h

-- ── C4: partial-failure tolerance of the merge ───────────────────────

/-- C4: with a valid (truthy) identifier pair, the merge is a total
function of the three settled outcomes (it cannot raise); each provider
block is non-null exactly when that provider fetch succeeded, a failure
yields an explicit null, and a fulfilled provider is always mapped to its
fully populated block, independent of the other provider outcome. -/
theorem c4_merge_partial_failure (ifpaId matchPlayId : JsNum)
    (mismatch : Option String) (ifpaData : Except String IFPAData)
    (mpData : Except String MatchPlayProfileResponse)
    (oppData : Except String (List RecentOpponent))
    (hA : jsTruthy ifpaId = true) (hB : jsTruthy matchPlayId = true) :
    ((mergeDashboard ifpaId matchPlayId mismatch ifpaData mpData oppData).ifpa
        ≠ none ↔ ifpaData.isOk = true) ∧
    (∀ v, ifpaData = .ok v →
      (mergeDashboard ifpaId matchPlayId mismatch ifpaData mpData oppData).ifpa
        = some (processIfpa v)) ∧
    (∀ e, ifpaData = .error e →
      (mergeDashboard ifpaId matchPlayId mismatch ifpaData mpData oppData).ifpa
        = none) ∧
    ((mergeDashboard ifpaId matchPlayId mismatch ifpaData mpData oppData).matchplay
        ≠ none ↔ mpData.isOk = true) ∧
    (∀ v, mpData = .ok v →
      (mergeDashboard ifpaId matchPlayId mismatch ifpaData mpData oppData).matchplay
        = some (processMatchPlay v)) ∧
    (∀ e, mpData = .error e →
      (mergeDashboard ifpaId matchPlayId mismatch ifpaData mpData oppData).matchplay
        = none) := by
  unfold mergeDashboard
  cases ifpaData <;> cases mpData <;>
    simp [hA, hB, Except.isOk, Except.toBool]

/-- A concrete Match Play profile for the C4 witness. -/
def mpC4 : MatchPlayProfileResponse :=
  { user := ⟨some "Ann", some "Town", none⟩, rating := none, userCounts := none }

/-- Witness for C4: IFPA fetch fails, Match Play fetch succeeds — the
IFPA block is an explicit null while the Match Play block is populated. -/
theorem c4_merge_partial_failure_witness :
    (mergeDashboard (.num 1) (.num 2) none (.error "boom") (.ok mpC4)
      (.ok [])).ifpa = none ∧
    (mergeDashboard (.num 1) (.num 2) none (.error "boom") (.ok mpC4)
      (.ok [])).matchplay = some (processMatchPlay mpC4) := by
  obtain ⟨-, -, h3, -, h5, -⟩ := c4_merge_partial_failure (.num 1) (.num 2)
    none (.error "boom") (.ok mpC4) (.ok []) (by decide) (by decide)
  exact ⟨h3 "boom" rfl, h5 mpC4 rfl⟩

-- ── C5: empty history versus failed reconstruction ───────────────────

/-- C5 counterexample: when the opponents fetch fails, the dashboard
carries the same empty opponents list as a zero-event success — not an
absent or null opponents value; the two cases differ only in the warning
string. -/
theorem c5_counterexample :
    (mergeDashboard (.num 1) (.num 2) none (.error "x") (.error "x")
      (.error "Recent opponents fetch failed")).recentOpponents
      = ([] : List RecentOpponent) ∧
    (mergeDashboard (.num 1) (.num 2) none (.error "x") (.error "x")
      (.ok [])).recentOpponents = ([] : List RecentOpponent) ∧
    (mergeDashboard (.num 1) (.num 2) none (.error "x") (.error "x")
      (.error "Recent opponents fetch failed")).recentOpponentsError
      = some "Recent opponents fetch failed" ∧
    (mergeDashboard (.num 1) (.num 2) none (.error "x") (.error "x")
      (.ok [])).recentOpponentsError = none := by
  refine ⟨by decide, by decide, by decide, by decide⟩

/-- C5 amended: a subject with zero qualifying events yields an empty
list (success, no warning); a failed reconstruction never fails the
request: the response is still a success whose opponents field is the
empty list, and the failure reason is carried in the user-visible
recentOpponentsError warning string (set only when a Match Play fetch was
actually attempted) — the two cases are distinguished by the warning, not
by a null opponents value. -/
theorem c5_amended_empty_vs_failure (userId : Int) (ifpaId matchPlayId : JsNum)
    (mismatch : Option String) (ifpaData : Except String IFPAData)
    (mpData : Except String MatchPlayProfileResponse)
    (hB : jsTruthy matchPlayId = true) :
    getRecentOpponents userId [] = [] ∧
    (∀ l, (mergeDashboard ifpaId matchPlayId mismatch ifpaData mpData
        (.ok l)).recentOpponents = l ∧
      (mergeDashboard ifpaId matchPlayId mismatch ifpaData mpData
        (.ok l)).recentOpponentsError = none) ∧
    (∀ r, (mergeDashboard ifpaId matchPlayId mismatch ifpaData mpData
        (.error r)).recentOpponents = [] ∧
      (mergeDashboard ifpaId matchPlayId mismatch ifpaData mpData
        (.error r)).recentOpponentsError = some r) ∧
    (∀ rawA rawB now cacheL ro ifD mpD r,
      ¬ (¬ strOptTruthy rawA ∧ ¬ strOptTruthy rawB) →
      ¬ ((strOptTruthy rawA ∧ (parseIntJs (rawA.getD "")).isNone) ∨
         (strOptTruthy rawB ∧ (parseIntJs (rawB.getD "")).isNone)) →
      routeGET rawA rawB true now none cacheL ⟨ro, ifD, mpD, .error r⟩ =
        .success (mergeDashboard (resolvePlayerIds rawA rawB ro).ifpaId
          (resolvePlayerIds rawA rawB ro).matchPlayId
          (resolvePlayerIds rawA rawB ro).idMismatchWarning
          ifD mpD (.error r)) false) := by
  refine ⟨rfl, ?_, ?_, ?_⟩
  · intro l
    unfold mergeDashboard
    simp [hB]
  · intro r
    unfold mergeDashboard
    simp [hB]
  · intro rawA rawB now cacheL ro ifD mpD r h1 h2
    unfold routeGET
    rw [if_neg h1, if_neg h2]
    rfl

/-- Witness for the amended C5 theorem at concrete inputs: empty history
gives an empty-list success, a failed reconstruction gives an empty list
plus the warning, and the route still answers success. -/
theorem c5_amended_empty_vs_failure_witness :
    getRecentOpponents 3 [] = [] ∧
    (mergeDashboard (.num 1) (.num 2) none (.error "x") (.error "x")
      (.error "boom")).recentOpponents = [] ∧
    (mergeDashboard (.num 1) (.num 2) none (.error "x") (.error "x")
      (.error "boom")).recentOpponentsError = some "boom" ∧
    routeGET (some "1") (some "2") true 0 none (fun _ => none)
      ⟨⟨.error (), .error ()⟩, .error "x", .error "x", .error "boom"⟩ =
      .success (mergeDashboard
        (resolvePlayerIds (some "1") (some "2") ⟨.error (), .error ()⟩).ifpaId
        (resolvePlayerIds (some "1") (some "2") ⟨.error (), .error ()⟩).matchPlayId
        (resolvePlayerIds (some "1") (some "2") ⟨.error (), .error ()⟩).idMismatchWarning
        (.error "x") (.error "x") (.error "boom")) false := by
  obtain ⟨w1, -, w3, w4⟩ := c5_amended_empty_vs_failure 3 (.num 1) (.num 2)
    none (.error "x") (.error "x") (by decide)
  exact ⟨w1, (w3 "boom").1, (w3 "boom").2,
    w4 (some "1") (some "2") 0 (fun _ => none) ⟨.error (), .error ()⟩
      (.error "x") (.error "x") "boom" (by decide) (by decide)⟩

-- ── C10: a supplied identifier that parses to 0 ──────────────────────

/-- Match Play profile whose user carries the IFPA cross-link "42". -/
def mpProfC10 : MatchPlayProfileResponse :=
  { user := ⟨some "Mia", none, some (.jStr "42")⟩
    rating := none, userCounts := none }

/-- Resolver oracle for the C10 counterexample. -/
def oC10res : ResolveOracle :=
  { ifpaProfileFetch := .error (), mpProfileFetch := .ok mpProfC10 }

/-- A plain IFPA getPlayerData value. -/
def ifpaC10 : IFPAData :=
  { player := { first_name := "Mia", last_name := "L", city := none
                stateprov := none, matchplay_events := none
                player_stats := none }
    stats := none, stateRanking := none, eventsByYear := [] }

/-- Fetch oracle for the C10 counterexample. -/
def oC10 : FetchOracle :=
  { resolveOracle := oC10res, ifpaData := .ok ifpaC10
    mpData := .ok mpProfC10, oppData := .ok [] }

/-- C10 counterexample: with "0" supplied as the IFPA id alongside a
valid Match Play id, validation passes and the falsy 0 routes the
resolver into the missing-IFPA branch: cross-link resolution IS attempted
on the zero identifier's behalf, the 0 is replaced by the linked id 42,
and the IFPA block of the unified record is populated, not null. -/
theorem c10_counterexample :
    ¬ validationRejected (some "0") (some "7") ∧
    parsedId (some "0") = .num 0 ∧
    (resolvePlayerIds (some "0") (some "7") oC10res).ifpaId = .num 42 ∧
    ((routeGET (some "0") (some "7") true 0 none (fun _ => none)
      oC10).dashboard.bind (fun d => d.ifpa)).isSome = true := by
  refine ⟨by decide, by decide, by decide, by decide⟩

/-- C10 amended: an identifier string parsing to 0 passes validation and
the parsed 0 fails every truthiness check, so it is treated exactly like
an absent identifier: when it is the only supplied identifier, no
cross-link lookup or provider fetch is attempted (the outcome is the same
for every oracle) and its provider block is null; when the other
provider's identifier is also supplied, the usual missing-id cross-link
discovery runs and may replace the 0, populating the block. -/
theorem c10_amended_zero_id (s : String) (hs : s ≠ "")
    (h0 : parseIntJs s = some 0) :
    ¬ validationRejected (some s) none ∧
    parsedId (some s) = .num 0 ∧
    jsTruthy (JsNum.num 0) = false ∧
    (∀ o : ResolveOracle,
      resolvePlayerIds (some s) none o = ⟨.num 0, .null, none⟩) ∧
    (∀ (now : Int) (cacheL : String → Option DashboardData) (o : FetchOracle),
      (routeGET (some s) none true now none cacheL o).dashboard.bind
        (fun d => d.ifpa) = none ∧
      (∀ o' : FetchOracle, routeGET (some s) none true now none cacheL o =
        routeGET (some s) none true now none cacheL o')) := by
  have hp : parsedId (some s) = .num 0 := by
    simp [parsedId, hs, h0]
  have hres : ∀ o : ResolveOracle,
      resolvePlayerIds (some s) none o = ⟨.num 0, .null, none⟩ := by
    intro o
    unfold resolvePlayerIds
    rw [hp]
    simp [parsedId, jsTruthy]
  refine ⟨?_, hp, by decide, hres, ?_⟩
  · intro h
    rcases h with ⟨ha, -⟩ | ⟨-, ha⟩ | ⟨hb, -⟩
    · exact ha (by simp [strOptTruthy, hs])
    · rw [Option.getD, h0] at ha
      cases ha
    · cases hb
  · intro now cacheL o
    have hroute : ∀ o1 : FetchOracle,
        routeGET (some s) none true now none cacheL o1 =
          .success (mergeDashboard (.num 0) .null none o1.ifpaData o1.mpData
            o1.oppData) false := by
      intro o1
      unfold routeGET
      rw [if_neg (by simp [strOptTruthy, hs]),
        if_neg (by simp [strOptTruthy, hs, h0])]
      simp only [isRateLimited]
      rw [hres o1.resolveOracle]
      rfl
    constructor
    · rw [hroute o]
      simp [RouteResponse.dashboard, mergeDashboard, jsTruthy]
    · intro o'
      rw [hroute o, hroute o']
      have hmerge : ∀ (a : Except String IFPAData)
          (b : Except String MatchPlayProfileResponse)
          (c : Except String (List RecentOpponent)),
          mergeDashboard (.num 0) .null none a b c =
            mergeDashboard (.num 0) .null none (.error "No IFPA ID")
              (.error "No Match Play ID") (.error "No Match Play ID") := by
        intro a b c
        unfold mergeDashboard
        simp [jsTruthy]
      rw [hmerge o.ifpaData o.mpData o.oppData,
        hmerge o'.ifpaData o'.mpData o'.oppData]

/-- Witness for the amended C10 theorem at the literal "0". -/
theorem c10_amended_zero_id_witness :
    parsedId (some "0") = .num 0 ∧
    resolvePlayerIds (some "0") none ⟨.error (), .error ()⟩ =
      ⟨.num 0, .null, none⟩ ∧
    (routeGET (some "0") none true 0 none (fun _ => none) oErr).dashboard.bind
      (fun d => d.ifpa) = none ∧
    routeGET (some "0") none true 0 none (fun _ => none) oErr =
      routeGET (some "0") none true 0 none (fun _ => none) oC10 := by
  obtain ⟨-, w2, -, w4, w5⟩ := c10_amended_zero_id "0" (by decide) (by decide)
  obtain ⟨w6, w7⟩ := w5 0 (fun _ => none) oErr
  exact ⟨w2, w4 ⟨.error (), .error ()⟩, w6, w7 oC10⟩
